import Mathlib

/-
Verification of the Sanhedrin responsa-archive browser script (`script.js`).

The script is a client-side catalog browser: it loads a flat JSON list of
document records, filters it by a free-text search term, a category and a
year, paginates the filtered list in pages of `ITEMS_PER_PAGE = 60` items,
and renders the current page as cards, bilingually (Hebrew/English).

Modelling conventions:
  * JavaScript strings are modelled as `List Char` (`JStr`); the string
    helpers (`toLowerCase`, `trim`, `indexOf`, `includes`, `startsWith`,
    `split(/\r?\n/)`, `slice`) are embedded one by one below.
  * The DOM inputs the script reads (search input, category select, year
    select) and the DOM outputs it writes (rendered cards, empty-state
    visibility, year options) are fields of an explicit `AppState` record,
    together with the module-level mutable variables (`currentLanguage`,
    `allResponsa`, `currentPage`, `currentResponsa`); each top-level
    function of the script becomes a state transformer on `AppState`.
  * `fetch('responsa.json')` + `response.json()` is abstracted as an
    `Except Unit (List Item)` argument to `loadResponsa`.
-/

namespace Sanhedrin

/-- JavaScript strings, modelled as lists of characters. -/
abbrev JStr := List Char

/-- `String.prototype.toLowerCase`, character by character.  (JS lowercasing
is Unicode-aware; all concrete strings in this development are ASCII, where
`Char.toLower` agrees with it.) -/
def jsToLower (s : JStr) : JStr := s.map Char.toLower

/-- The whitespace characters recognised by `String.prototype.trim` (ASCII
fragment; the concrete strings in this development contain no exotic
Unicode whitespace). -/
def isJsWhitespace (c : Char) : Bool :=
  c = ' ' || c = '\t' || c = '\n' || c = '\r' || c = '\x0b' || c = '\x0c'

/-- `String.prototype.trim`: strip whitespace from both ends. -/
def jsTrim (s : JStr) : JStr :=
  ((s.dropWhile isJsWhitespace).reverse.dropWhile isJsWhitespace).reverse

/-- `s.startsWith(pat)` (also `String(x) === …` prefix tests). -/
def jsStartsWith : JStr → JStr → Bool
  | _, [] => true
  | [], _ :: _ => false
  | a :: s, b :: p => a = b && jsStartsWith s p

/-- `s.indexOf(pat)`: index of the first occurrence of `pat` in `s`,
`none` standing for JavaScript's `-1`. -/
def jsIndexOf : JStr → JStr → Option Nat
  | [], pat => if pat = [] then some 0 else none
  | c :: rest, pat =>
    if jsStartsWith (c :: rest) pat then some 0
    else (jsIndexOf rest pat).map (fun i => i + 1)

/-- `s.includes(pat)`. -/
def jsIncludes (s pat : JStr) : Bool := (jsIndexOf s pat).isSome

/-- `Number.prototype.toString` for the natural numbers stored in the JSON
(`item.number`, `item.year`). -/
def natToChars (n : Nat) : JStr := (toString n).toList

/-- `text.split(/\r?\n/)`: split into lines at `"\n"` or `"\r\n"`
(a lone `'\r'` is not a separator). -/
def splitLines : JStr → List JStr
  | [] => [[]]
  | '\r' :: '\n' :: rest => [] :: splitLines rest
  | '\n' :: rest => [] :: splitLines rest
  | c :: rest =>
    match splitLines rest with
    | [] => [[c]]
    | l :: ls => (c :: l) :: ls

/-- `list.slice(start, stop)` on arrays (with `0 ≤ start ≤ stop`). -/
def jsSlice {α : Type} (l : List α) (start stop : Nat) : List α :=
  (l.drop start).take (stop - start)

/-- The test `/^#+\s*/.test(line)`: since `\s*` is optional, the regex
matches exactly when the line starts with at least one `'#'`. -/
def isHeadingLine : JStr → Bool
  | '#' :: _ => true
  | _ => false

/-- One iteration of the line-processing loop of `sanitizeSummary`
(`script.js` lines 40–53): trim the line; skip it when empty or when it
starts with `'#'`; cut it at the first occurrence of `'##'` or `'###'`
(whichever comes first) and re-trim; skip it when the cut left nothing.
`none` models `continue`, `some` models `processedLines.push(line)`. -/
def processLine (raw : JStr) : Option JStr :=
  let line := jsTrim raw
  if line = [] then none
  else if isHeadingLine line then none
  else
    let cut0 := line.length
    let cut1 :=
      match jsIndexOf line ['#', '#'] with
      | some idx2 => if idx2 < cut0 then idx2 else cut0
      | none => cut0
    let cut2 :=
      match jsIndexOf line ['#', '#', '#'] with
      | some idx3 => if idx3 < cut1 then idx3 else cut1
      | none => cut1
    let line2 := if cut2 < line.length then jsTrim (line.take cut2) else line
    if line2 = [] then none else some line2

/-- The whole line-processing loop of `sanitizeSummary`: run `processLine`
over the lines in order, collecting the surviving processed lines. -/
def processedLines : List JStr → List JStr
  | [] => []
  | raw :: rest =>
    match processLine raw with
    | none => processedLines rest
    | some line => line :: processedLines rest

/-- `sanitizeSummary(text, titleText)` (`script.js` lines 24–64): split the
text into lines, process them with the loop above, and return the first
processed line — unless a nonempty title is given and the first processed
line, lowercased, equals or starts with the trimmed lowercased title, in
which case the second processed line (or the empty string) is returned. -/
def sanitizeSummary (text titleText : JStr) : JStr :=
  if text = [] then []
  else
    let lines := splitLines text
    let processed := processedLines lines
    match processed with
    | [] => []
    | summary :: restLines =>
      if titleText ≠ [] then
        let titleNorm := jsToLower (jsTrim titleText)
        let summaryNorm := jsToLower summary
        if summaryNorm = titleNorm || jsStartsWith summaryNorm titleNorm then
          match restLines with
          | next :: _ => next
          | [] => []
        else summary
      else summary

/-- Spec-level restatement of one loop iteration, following the amended
wording of the summary-sanitizer property: drop a line that is empty or
starts with `'#'` after trimming; otherwise truncate it at the first
occurrence of `'##'` (if any), re-trim, and drop it if nothing remains.
(The separate `'###'` check of the code is redundant: a `'###'` occurrence
is a `'##'` occurrence.) -/
def processLineSpec (raw : JStr) : Option JStr :=
  let line := jsTrim raw
  if line = [] then none
  else if isHeadingLine line then none
  else
    match jsIndexOf line ['#', '#'] with
    | none => some line
    | some i =>
      let line2 := jsTrim (line.take i)
      if line2 = [] then none else some line2

/-- Spec-level restatement of `sanitizeSummary`, per the amended wording of
the summary-sanitizer property: a single `filterMap` pass with
`processLineSpec`, followed by the same title-aware selection of the first
or second surviving line. -/
def sanitizeSummarySpec (text titleText : JStr) : JStr :=
  if text = [] then []
  else
    match (splitLines text).filterMap processLineSpec with
    | [] => []
    | summary :: restLines =>
      if titleText ≠ [] then
        let titleNorm := jsToLower (jsTrim titleText)
        let summaryNorm := jsToLower summary
        if summaryNorm = titleNorm || jsStartsWith summaryNorm titleNorm then
          match restLines with
          | next :: _ => next
          | [] => []
        else summary
      else summary

/-- The lines that survive the literal reading of the summary-sanitizer
claim: only lines beginning (after trimming) with `'#'` are removed,
nothing else is altered. -/
def claimRemaining (text : JStr) : List JStr :=
  (splitLines text).filter (fun l => !jsStartsWith (jsTrim l) ['#'])

/-- One document record of `responsa.json`, as consumed by `script.js`:
number (sequence id), category (enum id plus two localized labels), title
and summary in two locales, date, year, file path and type (`html`/`pdf`). -/
structure Item where
  number : Nat
  title_he : JStr
  title_en : JStr
  summary_he : JStr
  summary_en : JStr
  category : JStr
  category_he : JStr
  category_en : JStr
  date : JStr
  year : Nat
  file : JStr
  type : JStr
deriving DecidableEq

/-- The data a rendered responsa card exposes (`createResponsaCard`,
`script.js` lines 141–182): the language-selected title, sanitized summary
(with fallback to the raw summary), language-selected category label, and
the remaining metadata interpolated into the card's HTML. -/
structure Card where
  number : Nat
  title : JStr
  summary : JStr
  category : JStr
  date : JStr
  year : Nat
  fileIcon : JStr
  fileTypeLabel : JStr
  readMoreLabel : JStr
  file : JStr
deriving DecidableEq

/-- `ITEMS_PER_PAGE` (`script.js` line 9). -/
def ITEMS_PER_PAGE : Nat := 60

/-- The state the script manipulates: the module-level mutable variables
(`currentLanguage`, `allResponsa`, `currentPage`, `currentResponsa`), the
DOM inputs it reads (search input value, category select value, year select
value) and the DOM outputs it writes (the cards in the responsa grid, the
empty-state visibility, the numeric options appended to the year select). -/
structure AppState where
  currentLanguage : JStr
  allResponsa : List Item
  currentPage : Nat
  currentResponsa : List Item
  searchInput : JStr
  categoryFilter : JStr
  yearFilter : JStr
  renderedCards : List Card
  emptyStateShown : Bool
  yearOptions : List Nat
deriving DecidableEq

/-- The state at page load: the initial values of the module-level
variables (`script.js` lines 1–16) and the DOM defaults (empty search box,
`'all'` selected in both filters, empty grid, hidden empty state). -/
def initState : AppState where
  currentLanguage := "he".toList
  allResponsa := []
  currentPage := 1
  currentResponsa := []
  searchInput := []
  categoryFilter := "all".toList
  yearFilter := "all".toList
  renderedCards := []
  emptyStateShown := false
  yearOptions := []

/-- `createResponsaCard(item)` (`script.js` lines 141–182), with the
`currentLanguage` global passed explicitly. -/
def createResponsaCard (currentLanguage : JStr) (item : Item) : Card :=
  let titleText := if currentLanguage = "he".toList then item.title_he else item.title_en
  let rawSummary := if currentLanguage = "he".toList then item.summary_he else item.summary_en
  let sanitized := sanitizeSummary rawSummary titleText
  let summaryText := if sanitized = [] then rawSummary else sanitized
  let categoryText := if currentLanguage = "he".toList then item.category_he else item.category_en
  let readMoreText := if currentLanguage = "he".toList then "קרא עוד ←".toList else "Read More →".toList
  { number := item.number
    title := titleText
    summary := summaryText
    category := categoryText
    date := item.date
    year := item.year
    fileIcon := if item.type = "pdf".toList then "📄".toList else "📝".toList
    fileTypeLabel := if item.type = "pdf".toList then "PDF".toList else "HTML".toList
    readMoreLabel := readMoreText
    file := item.file }

/-- The page-count computation `Math.ceil(totalItems / ITEMS_PER_PAGE)` of
`renderPaginationControls` (`script.js` line 311) and `changePage`
(line 362); `totalItems` is a natural number, so the ceiling is taken of an
exact rational quotient. -/
def totalPages (totalItems : Nat) : Nat :=
  Nat.ceil ((totalItems : ℚ) / ITEMS_PER_PAGE)

/-- The slice `responsa.slice(startIndex, endIndex)` that `displayResponsa`
renders for a page (`script.js` lines 127–129). -/
def pageItems (responsa : List Item) (page : Nat) : List Item :=
  let startIndex := (page - 1) * ITEMS_PER_PAGE
  let endIndex := startIndex + ITEMS_PER_PAGE
  jsSlice responsa startIndex endIndex

/-- `displayResponsa(responsa)` (`script.js` lines 105–138): with an empty
list, clear the grid and show the empty state; otherwise render the current
page's slice as cards and hide the empty state. -/
def displayResponsa (responsa : List Item) (st : AppState) : AppState :=
  if responsa.length = 0 then
    { st with renderedCards := [], emptyStateShown := true }
  else
    { st with
      renderedCards := (pageItems responsa st.currentPage).map (createResponsaCard st.currentLanguage)
      emptyStateShown := false }

/-- The search predicate of `searchResponsa` (`script.js` lines 194–200):
the lowercased search term occurs in a lowercased title or summary of
either locale, or in the decimal string of the item number. -/
def matchesSearchTerm (searchTerm : JStr) (item : Item) : Bool :=
  jsIncludes (jsToLower item.title_he) searchTerm ||
  jsIncludes (jsToLower item.title_en) searchTerm ||
  jsIncludes (jsToLower item.summary_he) searchTerm ||
  jsIncludes (jsToLower item.summary_en) searchTerm ||
  jsIncludes (natToChars item.number) searchTerm

/-- The filter chain of `searchResponsa` (`script.js` lines 185–212): start
from `allResponsa`; when the lowercased search term is nonempty keep items
matching it; when the category select is not `'all'` keep items with that
category id; when the year select is not `'all'` keep items whose year's
decimal string equals the selected value. -/
def searchResponsaFiltered (st : AppState) : List Item :=
  let searchTerm := jsToLower st.searchInput
  let filtered0 := st.allResponsa
  let filtered1 :=
    if searchTerm ≠ [] then filtered0.filter (fun item => matchesSearchTerm searchTerm item)
    else filtered0
  let filtered2 :=
    if st.categoryFilter ≠ "all".toList then filtered1.filter (fun item => item.category = st.categoryFilter)
    else filtered1
  if st.yearFilter ≠ "all".toList then filtered2.filter (fun item => natToChars item.year = st.yearFilter)
  else filtered2

/-- `searchResponsa()` (`script.js` lines 185–217): recompute the filter
chain, store it in `currentResponsa`, reset `currentPage` to 1 and
re-render.  `filterResponsa()` (lines 220–222) just calls this. -/
def searchResponsa (st : AppState) : AppState :=
  let filtered := searchResponsaFiltered st
  displayResponsa filtered { st with currentResponsa := filtered, currentPage := 1 }

/-- `getFilteredResponsa()` (`script.js` lines 251–276): the filter chain
recomputed after a language toggle.  Unlike `searchResponsa`, its search
predicate does not test the item number. -/
def getFilteredResponsa (st : AppState) : List Item :=
  let searchTerm := jsToLower st.searchInput
  let filtered0 := st.allResponsa
  let filtered1 :=
    if searchTerm ≠ [] then
      filtered0.filter (fun item =>
        jsIncludes (jsToLower item.title_he) searchTerm ||
        jsIncludes (jsToLower item.title_en) searchTerm ||
        jsIncludes (jsToLower item.summary_he) searchTerm ||
        jsIncludes (jsToLower item.summary_en) searchTerm)
    else filtered0
  let filtered2 :=
    if st.categoryFilter ≠ "all".toList then filtered1.filter (fun item => item.category = st.categoryFilter)
    else filtered1
  if st.yearFilter ≠ "all".toList then filtered2.filter (fun item => natToChars item.year = st.yearFilter)
  else filtered2

/-- `toggleLanguage()` (`script.js` lines 225–234): flip the language,
recompute the filtered list with `getFilteredResponsa`, and re-render
without resetting `currentPage`. -/
def toggleLanguage (st : AppState) : AppState :=
  let newLanguage := if st.currentLanguage = "he".toList then "en".toList else "he".toList
  let st1 := { st with currentLanguage := newLanguage }
  let filtered := getFilteredResponsa st1
  displayResponsa filtered { st1 with currentResponsa := filtered }

/-- `changePage(page)` (`script.js` lines 361–366): ignore a page outside
`1 … Math.ceil(currentResponsa.length / ITEMS_PER_PAGE)`; otherwise set
`currentPage` and re-render the stored filtered list.  The argument is an
integer, as callers pass `currentPage ± 1`. -/
def changePage (page : Int) (st : AppState) : AppState :=
  if page < 1 ∨ page > (totalPages st.currentResponsa.length : Int) then st
  else displayResponsa st.currentResponsa { st with currentPage := page.toNat }

/-- The JavaScript `Set` iteration order: first occurrences, in order. -/
def dedupFirst (seen : List Nat) : List Nat → List Nat
  | [] => []
  | x :: xs => if x ∈ seen then dedupFirst seen xs else x :: dedupFirst (x :: seen) xs

/-- The year list built by `populateYearFilter` (`script.js` lines 92–102):
`[...new Set(allResponsa.map(r => r.year))].sort((a, b) => b - a)` — the
distinct years, sorted descending.  (On a duplicate-free numeric list the
comparator `b - a` determines the order completely, so any correct sort
yields the same list.) -/
def populateYearFilter (allResponsa : List Item) : List Nat :=
  List.insertionSort (· ≥ ·) (dedupFirst [] (allResponsa.map (fun r => r.year)))

/-- `loadResponsa()` (`script.js` lines 73–89), with the result of
`fetch('responsa.json')` + `response.json()` abstracted as an `Except`
argument: on success store the dataset, append the year options, reset to
page 1 and render; on failure only show the empty state. -/
def loadResponsa (fetchResult : Except Unit (List Item)) (st : AppState) : AppState :=
  match fetchResult with
  | .ok data =>
    let st1 := { st with
      allResponsa := data
      currentResponsa := data
      yearOptions := st.yearOptions ++ populateYearFilter data
      currentPage := 1 }
    displayResponsa st1.currentResponsa st1
  | .error _ => { st with emptyStateShown := true }

/-- The items displayed on the current page, as a function of the state:
the language-toggle filter chain (`getFilteredResponsa`) followed by the
page slice of `displayResponsa`. -/
def displayedItems (st : AppState) : List Item :=
  pageItems (getFilteredResponsa st) st.currentPage

/-- `filterResponsa()` (`script.js` lines 220–222): delegates to
`searchResponsa`. -/
def filterResponsa (st : AppState) : AppState := searchResponsa st

/-- A concrete document record used to instantiate theorems with
hypotheses.  Its number `42` occurs in none of its text fields. -/
def sampleItem : Item where
  number := 42
  title_he := "shaela".toList
  title_en := "question".toList
  summary_he := "tamtzit".toList
  summary_en := "summary".toList
  category := "halacha".toList
  category_he := "hlk".toList
  category_en := "halacha".toList
  date := "2024-05-01".toList
  year := 2024
  file := "responsa/2024/doc1.html".toList
  type := "html".toList

/-- A loaded one-item state in Hebrew. -/
def stateHe : AppState := { initState with allResponsa := [sampleItem] }

/-- The same state after flipping the language field to English. -/
def stateEn : AppState := { stateHe with currentLanguage := "en".toList }

/-- A state whose current filtered list holds one item (one page). -/
def pagedState : AppState :=
  { initState with allResponsa := [sampleItem], currentResponsa := [sampleItem] }

/-- A loaded one-item state whose search box holds `"42"`: the term occurs
in `sampleItem.number` but in none of its titles or summaries. -/
def numberSearchState : AppState :=
  { initState with allResponsa := [sampleItem], searchInput := "42".toList }

/-! ### Helper lemmas about `displayResponsa` and the filter chains -/

theorem displayResponsa_allResponsa (l : List Item) (st : AppState) :
    (displayResponsa l st).allResponsa = st.allResponsa := by
  unfold displayResponsa; split <;> rfl

theorem displayResponsa_currentResponsa (l : List Item) (st : AppState) :
    (displayResponsa l st).currentResponsa = st.currentResponsa := by
  unfold displayResponsa; split <;> rfl

theorem displayResponsa_currentPage (l : List Item) (st : AppState) :
    (displayResponsa l st).currentPage = st.currentPage := by
  unfold displayResponsa; split <;> rfl

theorem searchResponsa_currentResponsa (st : AppState) :
    (searchResponsa st).currentResponsa = searchResponsaFiltered st := by
  unfold searchResponsa
  rw [displayResponsa_currentResponsa]

theorem toggleLanguage_currentResponsa (st : AppState) :
    (toggleLanguage st).currentResponsa =
      getFilteredResponsa { st with currentLanguage := if st.currentLanguage = "he".toList then "en".toList else "he".toList } := by
  unfold toggleLanguage
  rw [displayResponsa_currentResponsa]

theorem filter_if_sublist {α : Type} (b : Prop) [Decidable b] (p : α → Bool) (l : List α) :
    (if b then l.filter p else l).Sublist l := by
  split
  · exact List.filter_sublist l
  · exact List.Sublist.refl l

theorem searchResponsaFiltered_sublist (st : AppState) :
    (searchResponsaFiltered st).Sublist st.allResponsa := by
  simp only [searchResponsaFiltered]
  exact (filter_if_sublist _ _ _).trans ((filter_if_sublist _ _ _).trans (filter_if_sublist _ _ _))

theorem getFilteredResponsa_sublist (st : AppState) :
    (getFilteredResponsa st).Sublist st.allResponsa := by
  simp only [getFilteredResponsa]
  exact (filter_if_sublist _ _ _).trans ((filter_if_sublist _ _ _).trans (filter_if_sublist _ _ _))

/-- `Math.ceil(n / 60)` for a natural `n` is the natural division
`(n + 59) / 60`; this makes `totalPages` computable by the kernel. -/
theorem totalPages_eq (n : Nat) : totalPages n = (n + 59) / 60 := by
  simp only [totalPages, ITEMS_PER_PAGE, Nat.cast_ofNat]
  rcases Nat.eq_zero_or_pos n with h | h
  · subst h; simp
  · have hd : 0 < (n + 59) / 60 := Nat.div_pos (by omega) (by norm_num)
    rw [Nat.ceil_eq_iff (Nat.pos_iff_ne_zero.mp hd)]
    constructor
    · rw [lt_div_iff₀ (by norm_num : (0:ℚ) < 60)]
      have key : ((n + 59) / 60 - 1) * 60 < n := by omega
      calc ((((n + 59) / 60 - 1 : ℕ)) : ℚ) * 60 = (((n + 59) / 60 - 1) * 60 : ℕ) := by push_cast; ring
        _ < (n : ℚ) := by exact_mod_cast key
    · rw [div_le_iff₀ (by norm_num : (0:ℚ) < 60)]
      have key2 : n ≤ (n + 59) / 60 * 60 := by omega
      exact_mod_cast key2

/-! ### The claims -/

/-- **C6.** If fetching or parsing `responsa.json` fails, `loadResponsa`
catches the error and only shows the empty state: from any state the whole
effect is `emptyStateShown := true`, and in particular at the page-load
state no cards are rendered and `allResponsa` remains the empty list. -/
theorem loadResponsa_error_shows_empty_state :
    (∀ (st : AppState) (e : Unit),
      loadResponsa (Except.error e) st = { st with emptyStateShown := true }) ∧
    (loadResponsa (Except.error ()) initState).allResponsa = [] ∧
    (loadResponsa (Except.error ()) initState).renderedCards = [] ∧
    (loadResponsa (Except.error ()) initState).emptyStateShown = true :=
  ⟨fun _ _ => rfl, rfl, rfl, rfl⟩

/-- **C8.** `searchResponsa` (and hence `filterResponsa`) always leaves
`currentPage = 1`, so a changed search or filter shows the first page,
while `toggleLanguage` re-renders with `currentPage` unchanged. -/
theorem search_resets_page_toggle_keeps_page (st : AppState) :
    (searchResponsa st).currentPage = 1 ∧
    (filterResponsa st).currentPage = 1 ∧
    (toggleLanguage st).currentPage = st.currentPage := by
  refine ⟨?_, ?_, ?_⟩
  · unfold searchResponsa
    rw [displayResponsa_currentPage]
  · unfold filterResponsa searchResponsa
    rw [displayResponsa_currentPage]
  · unfold toggleLanguage
    rw [displayResponsa_currentPage]

/-- **C5.** The set of items displayed on a page is a deterministic
function of (search term, category, year, page number) over the loaded
dataset: two states agreeing on these four inputs and on the dataset
display the same item list, whatever the rest of the state (in particular
the current language) is. -/
theorem displayedItems_deterministic (st1 st2 : AppState)
    (hdata : st1.allResponsa = st2.allResponsa)
    (hsearch : st1.searchInput = st2.searchInput)
    (hcat : st1.categoryFilter = st2.categoryFilter)
    (hyear : st1.yearFilter = st2.yearFilter)
    (hpage : st1.currentPage = st2.currentPage) :
    displayedItems st1 = displayedItems st2 := by
  unfold displayedItems getFilteredResponsa
  rw [hdata, hsearch, hcat, hyear, hpage]

/-- Witness for C5: two states that differ in the current language (and in
nothing the pipeline reads) display the same items. -/
theorem displayedItems_deterministic_witness :
    stateHe.currentLanguage ≠ stateEn.currentLanguage ∧
    displayedItems stateHe = displayedItems stateEn :=
  ⟨by decide, displayedItems_deterministic stateHe stateEn rfl rfl rfl rfl rfl⟩

/-- **C7.** Searching, filtering, paginating, toggling the language and
rendering never modify the document records: each operation keeps the
`allResponsa` field intact, and the filtered lists it produces are
sublists of it — they contain the original records themselves.  (Card
creation reads record fields into a fresh `Card` and writes nothing.) -/
theorem operations_preserve_records (st : AppState) :
    (searchResponsa st).allResponsa = st.allResponsa ∧
    (toggleLanguage st).allResponsa = st.allResponsa ∧
    (∀ page : Int, (changePage page st).allResponsa = st.allResponsa) ∧
    (∀ l : List Item, (displayResponsa l st).allResponsa = st.allResponsa) ∧
    (searchResponsa st).currentResponsa.Sublist st.allResponsa ∧
    (toggleLanguage st).currentResponsa.Sublist st.allResponsa := by
  refine ⟨?_, ?_, ?_, fun l => displayResponsa_allResponsa l st, ?_, ?_⟩
  · unfold searchResponsa
    rw [displayResponsa_allResponsa]
  · unfold toggleLanguage
    rw [displayResponsa_allResponsa]
  · intro page
    unfold changePage
    split
    · rfl
    · rw [displayResponsa_allResponsa]
  · rw [searchResponsa_currentResponsa]
    exact searchResponsaFiltered_sublist st
  · rw [toggleLanguage_currentResponsa]
    exact getFilteredResponsa_sublist _

/-- **C9.** `changePage` ignores a page outside
`1 … Math.ceil(currentResponsa.length / ITEMS_PER_PAGE)` — the state, and
with it the rendered grid, is untouched — and for a page inside the range
it sets `currentPage` to that page, re-rendering the same filtered list. -/
theorem changePage_bounds (st : AppState) (page : Int) :
    (page < 1 ∨ (totalPages st.currentResponsa.length : Int) < page →
      changePage page st = st) ∧
    (1 ≤ page → page ≤ (totalPages st.currentResponsa.length : Int) →
      (changePage page st).currentPage = page.toNat ∧
      (changePage page st).currentResponsa = st.currentResponsa) := by
  constructor
  · intro h
    unfold changePage
    rw [if_pos h]
  · intro h1 h2
    unfold changePage
    rw [if_neg (by omega)]
    rw [displayResponsa_currentPage, displayResponsa_currentResponsa]
    exact ⟨rfl, rfl⟩

/-- Witness for C9: with one item there is one page, so page 2 is rejected
without effect and page 1 is accepted. -/
theorem changePage_bounds_witness :
    changePage 2 pagedState = pagedState ∧
    (changePage 1 pagedState).currentPage = 1 := by
  have htp : totalPages pagedState.currentResponsa.length = 1 := by
    rw [totalPages_eq]; decide
  constructor
  · exact (changePage_bounds pagedState 2).1 (Or.inr (by rw [htp]; decide))
  · exact ((changePage_bounds pagedState 1).2 (by decide) (by rw [htp]; decide)).1

/-- **C1.** The list `searchResponsa` computes is a sublist of the full
dataset, and an item belongs to it exactly when it passes every active
predicate — search-term match, category equality, year equality — combined
with logical AND, the inactive predicates (empty lowercased search term,
`'all'` category, `'all'` year) being skipped. -/
theorem searchResponsa_filter_characterization (st : AppState) :
    (searchResponsa st).currentResponsa.Sublist st.allResponsa ∧
    (∀ item : Item,
      item ∈ (searchResponsa st).currentResponsa ↔
        item ∈ st.allResponsa ∧
        (jsToLower st.searchInput ≠ [] →
          matchesSearchTerm (jsToLower st.searchInput) item = true) ∧
        (st.categoryFilter ≠ "all".toList → item.category = st.categoryFilter) ∧
        (st.yearFilter ≠ "all".toList → natToChars item.year = st.yearFilter)) := by
  refine ⟨?_, ?_⟩
  · rw [searchResponsa_currentResponsa]
    exact searchResponsaFiltered_sublist st
  · intro item
    rw [searchResponsa_currentResponsa]
    have hall : ("all".toList : JStr) = ['a', 'l', 'l'] := rfl
    simp only [searchResponsaFiltered, hall]
    by_cases h1 : jsToLower st.searchInput = [] <;>
      by_cases h2 : st.categoryFilter = ['a', 'l', 'l'] <;>
        by_cases h3 : st.yearFilter = ['a', 'l', 'l'] <;>
          simp [h1, h2, h3, List.mem_filter] <;> tauto

/-- **C2.** For a nonempty filtered list and the page size
`ITEMS_PER_PAGE = 60`, every valid page before the last holds exactly
`ITEMS_PER_PAGE` items, and the last page (number
`Math.ceil(N / ITEMS_PER_PAGE)`) holds `N % ITEMS_PER_PAGE` items — or
`ITEMS_PER_PAGE` when that remainder is zero. -/
theorem pagination_page_sizes (l : List Item) (page : Nat)
    (hN : 0 < l.length) (hp1 : 1 ≤ page) (hpk : page ≤ totalPages l.length) :
    (page < totalPages l.length → (pageItems l page).length = ITEMS_PER_PAGE) ∧
    (page = totalPages l.length →
      (pageItems l page).length =
        if l.length % ITEMS_PER_PAGE = 0 then ITEMS_PER_PAGE
        else l.length % ITEMS_PER_PAGE) := by
  constructor
  · intro hlt
    rw [totalPages_eq] at hpk hlt
    simp only [pageItems, jsSlice, List.length_take, List.length_drop, ITEMS_PER_PAGE]
    omega
  · intro heq
    rw [totalPages_eq] at hpk heq
    simp only [pageItems, jsSlice, List.length_take, List.length_drop, ITEMS_PER_PAGE]
    split_ifs with hmod <;> omega

/-- Witness for C2: 61 items make two pages; the last page holds
`61 % 60 = 1` item. -/
theorem pagination_page_sizes_witness :
    (pageItems (List.replicate 61 sampleItem) 2).length =
      if (List.replicate 61 sampleItem).length % ITEMS_PER_PAGE = 0 then ITEMS_PER_PAGE
      else (List.replicate 61 sampleItem).length % ITEMS_PER_PAGE := by
  have h61 : (List.replicate 61 sampleItem).length = 61 := by
    simp [List.length_replicate]
  have htp : totalPages (List.replicate 61 sampleItem).length = 2 := by
    rw [h61, totalPages_eq]
  exact (pagination_page_sizes (List.replicate 61 sampleItem) 2
    (by rw [h61]; decide) (by decide) (by rw [htp])).2 (by rw [htp])

/-- **C4 (code bug).** The two filter chains are not equivalent: with the
search term `"42"` over a dataset whose only item has number 42 and no
`"42"` in any text field, `searchResponsa` keeps the item (its search
predicate tests `item.number.toString()`) while `getFilteredResponsa` — the
chain re-run by `toggleLanguage` — drops it, although both chains read the
same (search, category, year) inputs from the same state. -/
theorem filter_chains_divergence :
    (searchResponsa numberSearchState).currentResponsa = [sampleItem] ∧
    getFilteredResponsa numberSearchState = [] := by
  decide

/-- Membership in the deduplication pass modelling `new Set(...)`. -/
theorem mem_dedupFirst (x : Nat) (seen l : List Nat) :
    x ∈ dedupFirst seen l ↔ x ∈ l ∧ x ∉ seen := by
  induction l generalizing seen with
  | nil => simp [dedupFirst]
  | cons y ys ih =>
    unfold dedupFirst
    by_cases hy : y ∈ seen
    · rw [if_pos hy, ih]
      by_cases hxy : x = y
      · subst hxy; simp [hy]
      · simp [hxy]
    · rw [if_neg hy]
      by_cases hxy : x = y
      · subst hxy; simp [hy]
      · simp [List.mem_cons, ih, hxy]

/-- The deduplication pass leaves no duplicates. -/
theorem nodup_dedupFirst (seen l : List Nat) : (dedupFirst seen l).Nodup := by
  induction l generalizing seen with
  | nil => simp [dedupFirst]
  | cons y ys ih =>
    unfold dedupFirst
    split
    · exact ih seen
    · rw [List.nodup_cons]
      refine ⟨?_, ih _⟩
      intro hmem
      rw [mem_dedupFirst] at hmem
      exact hmem.2 (List.mem_cons_self _ _)

/-- **C10.** The year filter offers exactly the distinct year values of the
loaded dataset — a year is offered iff some record carries it — with no
duplicates, in strictly descending order. -/
theorem populateYearFilter_spec (data : List Item) :
    (populateYearFilter data).Nodup ∧
    (populateYearFilter data).Sorted (fun a b => a > b) ∧
    (∀ y : Nat, y ∈ populateYearFilter data ↔ ∃ r ∈ data, r.year = y) := by
  have hperm : (populateYearFilter data).Perm (dedupFirst [] (data.map (fun r => r.year))) :=
    List.perm_insertionSort _ _
  have hnodup : (populateYearFilter data).Nodup :=
    hperm.nodup_iff.mpr (nodup_dedupFirst _ _)
  refine ⟨hnodup, ?_, ?_⟩
  · have hsorted : (populateYearFilter data).Sorted (· ≥ ·) :=
      List.sorted_insertionSort _ _
    exact List.Pairwise.imp (fun h => lt_of_le_of_ne h.1 (Ne.symm h.2))
      (List.Pairwise.and hsorted hnodup)
  · intro y
    rw [hperm.mem_iff, mem_dedupFirst]
    simp [List.mem_map]

/-! ### The summary sanitizer (C3) -/

theorem jsStartsWith_hash3_hash2 {s : JStr} (h : jsStartsWith s ['#', '#', '#'] = true) :
    jsStartsWith s ['#', '#'] = true := by
  rcases s with _ | ⟨a, _ | ⟨b, t⟩⟩ <;> simp [jsStartsWith] at h ⊢ <;> tauto

theorem jsIndexOf_lt_length {s pat : JStr} {i : Nat} (hpat : pat ≠ [])
    (h : jsIndexOf s pat = some i) : i < s.length := by
  induction s generalizing i with
  | nil =>
    rw [jsIndexOf, if_neg hpat] at h
    cases h
  | cons c rest ih =>
    rw [jsIndexOf] at h
    by_cases hs : jsStartsWith (c :: rest) pat = true
    · rw [if_pos hs] at h
      cases h
      simp
    · rw [if_neg hs] at h
      obtain ⟨j, hj, rfl⟩ := Option.map_eq_some'.mp h
      have := ih hj
      simp
      omega

/-- An occurrence of `'###'` is in particular an occurrence of `'##'`, so
the first `'##'` occurrence is never to the right of the first `'###'`
occurrence. -/
theorem jsIndexOf_hash2_le_hash3 {s : JStr} {j : Nat}
    (h : jsIndexOf s ['#', '#', '#'] = some j) :
    ∃ i, jsIndexOf s ['#', '#'] = some i ∧ i ≤ j := by
  induction s generalizing j with
  | nil =>
    rw [jsIndexOf, if_neg (by simp)] at h
    cases h
  | cons c rest ih =>
    by_cases h3 : jsStartsWith (c :: rest) ['#', '#', '#'] = true
    · rw [jsIndexOf, if_pos h3] at h
      refine ⟨0, ?_, Nat.zero_le _⟩
      rw [jsIndexOf, if_pos (jsStartsWith_hash3_hash2 h3)]
    · rw [jsIndexOf, if_neg h3] at h
      obtain ⟨j2, hj2, rfl⟩ := Option.map_eq_some'.mp h
      by_cases h2 : jsStartsWith (c :: rest) ['#', '#'] = true
      · exact ⟨0, by rw [jsIndexOf, if_pos h2], Nat.zero_le _⟩
      · obtain ⟨i, hi, hle⟩ := ih hj2
        refine ⟨i + 1, ?_, by omega⟩
        rw [jsIndexOf, if_neg h2, hi]
        rfl

/-- The two-cut loop body (`'##'` then `'###'`) is the single-cut spec
body: the `'###'` cut never fires first. -/
theorem processLine_eq_spec (raw : JStr) : processLine raw = processLineSpec raw := by
  unfold processLine processLineSpec
  by_cases h0 : jsTrim raw = []
  · simp [h0]
  · by_cases h1 : isHeadingLine (jsTrim raw) = true
    · simp [h0, h1]
    · simp only [h0, h1, if_false, Bool.false_eq_true, ite_false]
      cases h2 : jsIndexOf (jsTrim raw) ['#', '#'] with
      | none =>
        have h3 : jsIndexOf (jsTrim raw) ['#', '#', '#'] = none := by
          cases h3x : jsIndexOf (jsTrim raw) ['#', '#', '#'] with
          | none => rfl
          | some j =>
            obtain ⟨i, hi, _⟩ := jsIndexOf_hash2_le_hash3 h3x
            rw [h2] at hi
            cases hi
        simp [h2, h3, h0]
      | some i =>
        have hilt : i < (jsTrim raw).length := jsIndexOf_lt_length (by simp) h2
        cases h3 : jsIndexOf (jsTrim raw) ['#', '#', '#'] with
        | none => simp [h2, h3, hilt]
        | some j =>
          obtain ⟨i2, hi2, hij⟩ := jsIndexOf_hash2_le_hash3 h3
          rw [h2] at hi2
          injection hi2 with hii
          subst hii
          have hnot : ¬ j < i := by omega
          simp [h2, h3, hilt, hnot]

/-- The imperative push/continue loop is a single `filterMap` pass. -/
theorem processedLines_eq_filterMap (ls : List JStr) :
    processedLines ls = ls.filterMap processLineSpec := by
  induction ls with
  | nil => rfl
  | cons raw rest ih =>
    unfold processedLines
    rw [processLine_eq_spec]
    cases h : processLineSpec raw with
    | none => simp [List.filterMap_cons, h, ih]
    | some line => simp [List.filterMap_cons, h, ih]

/-- **C3 (counterexample).** The claim that `sanitizeSummary` only removes
lines beginning with `'#'` and otherwise returns the first remaining line
is false: in `"hello ## world"` no line begins with `'#'`, so the first
(and only) remaining line is the whole text, yet `sanitizeSummary`
truncates it at the in-line `'##'` and returns `"hello"`. -/
theorem sanitizeSummary_claim_cex :
    claimRemaining "hello ## world".toList = ["hello ## world".toList] ∧
    sanitizeSummary "hello ## world".toList "Title".toList = "hello".toList ∧
    ("hello".toList : JStr) ≠ "hello ## world".toList := by
  decide

/-- **C3 (amended).** `sanitizeSummary` drops every line that after
trimming is empty or begins with one or more `'#'` characters, truncates
each surviving line at its first `'##'` occurrence (re-trimming, and
dropping the line if nothing remains), and returns the first resulting
line — unless a nonempty title is given and that line, lowercased, equals
or starts with the trimmed lowercased title, in which case the second
resulting line (or the empty string) is returned: the code equals the
spec-level pipeline `sanitizeSummarySpec` on all inputs. -/
theorem sanitizeSummary_amended (text titleText : JStr) :
    sanitizeSummary text titleText = sanitizeSummarySpec text titleText := by
  simp only [sanitizeSummary, sanitizeSummarySpec, processedLines_eq_filterMap]

end Sanhedrin
